import Mathlib

/-!
Verification of the snap-point engine of the ModalSheet repository.

The definitions below are a shallow embedding of the TypeScript sources:
* `src/react-native-modal-sheet/src/ModalSheet/hooks/useSnapPoints.ts`
* `src/react-native-modal-sheet/src/ModalSheet/hooks/useAnimations.ts`
* `src/react-native-modal-sheet/src/ModalSheet/hooks/useGestureHandlers.ts`
* `src/react-native-modal-sheet/src/ModalSheet/ModalSheet.tsx` (and the
  twin implementation `src/react-native-modal-sheet/src/ModalSheet.tsx`)
* the PanResponder-based variant in `src/unnamed/part_005`

Pixel magnitudes and velocities are modelled as rationals (`ℚ`), JS numeric
indices as integers (`ℤ`).  A JS value that may be `undefined`/`NaN` is
modelled as `Option ℚ` with `none` standing for the not-a-number outcome of
arithmetic on `undefined`.
-/

namespace ModalSheet

/-- A JS out-of-bounds array read: `l[i]` is `undefined` (here `none`)
whenever `i` is not an integer in `[0, l.length)`. -/
def jsGet (l : List ℚ) (i : ℤ) : Option ℚ :=
  if h : 0 ≤ i ∧ i < (l.length : ℤ) then
    some (l.get ⟨i.toNat, by omega⟩)
  else none

/-- One entry of the `snapPoints` configuration array, as the JS code sees it
after type dispatch: a string (retaining its `parseFloat` value and whether it
ends in `%`) or a plain number. -/
inductive SnapEntry where
  | str (value : ℚ) (endsWithPercent : Bool)
  | num (value : ℚ)
deriving DecidableEq, Repr

/-- Embedding of the `pointsArray.map` callback in `useSnapPoints.ts`
(lines 18–33): `%` strings become `screenHeight * (parseFloat / 100)`, other
strings become their `parseFloat` value, numbers in `(0, 1]` become
`screenHeight * point`, all other numbers are returned unchanged. -/
def normalizePoint (screenHeight : ℚ) : SnapEntry → ℚ
  | .str v true => screenHeight * (v / 100)
  | .str v false => v
  | .num v => if 0 < v ∧ v ≤ 1 then screenHeight * v else v

/-- Embedding of the `snapPointsInPixels` memo in `useSnapPoints.ts`
(lines 10–34): `null` when the spec is absent or empty, otherwise the entry
list mapped through `normalizePoint`.  No sorting, no deduplication. -/
def snapPointsInPixels (screenHeight : ℚ) :
    Option (List SnapEntry) → Option (List ℚ)
  | none => none
  | some pointsArray =>
    if pointsArray.isEmpty then none
    else some (pointsArray.map (normalizePoint screenHeight))

/-- Embedding of `getSnapTranslateY` in `useSnapPoints.ts` (lines 36–45):
`0` when snap points are absent or empty; otherwise
`maxHeight - snapPointsInPixels[index]`, where an out-of-range read yields
`undefined` and the subtraction yields NaN (modelled as `none`). -/
def getSnapTranslateY (sp : Option (List ℚ)) (index : ℤ) : Option ℚ :=
  match sp with
  | none => some 0
  | some l =>
    match l.getLast? with
    | none => some 0
    | some maxHeight => (jsGet l index).map (fun target => maxHeight - target)

/-- The in-range value of `getSnapTranslateY`: the offset-from-max of the
snap point at (natural) position `i`. -/
def offsetOf (l : List ℚ) (i : ℕ) : ℚ :=
  l.getLastD 0 - l.getD i 0

/-- Result of the drag-release resolver `findTargetSnapIndex`: either a snap
index or the `close` sentinel. -/
inductive SnapTarget where
  | close
  | index (i : ℤ)
deriving DecidableEq, Repr

/-- The `for` loop of `findTargetSnapIndex` in `useAnimations.ts`
(lines 88–98), iterating over the snap list with its running
`(targetIndex, minDistance)` accumulator; `minDistance = none` models the
initial `Infinity`.  `b` is the absolute position of the head of `xs`. -/
def findClosestGo (off maxH : ℚ) :
    List ℚ → ℕ → ℕ → Option ℚ → ℕ × Option ℚ
  | [], _, target, minD => (target, minD)
  | x :: xs, b, target, minD =>
    match minD with
    | none => findClosestGo off maxH xs (b + 1) b (some |off - (maxH - x)|)
    | some m =>
      if |off - (maxH - x)| < m then
        findClosestGo off maxH xs (b + 1) b (some |off - (maxH - x)|)
      else findClosestGo off maxH xs (b + 1) target (some m)

/-- The index produced by the closest-snap-point loop of
`findTargetSnapIndex` for a snap list `l` and current offset `off`. -/
def findClosest (l : List ℚ) (off : ℚ) : ℕ :=
  (findClosestGo off (l.getLastD 0) l 0 0 none).1

/-- Embedding of `findTargetSnapIndex` in `useAnimations.ts` (lines 70–103):
returns the current index when snap mode is inactive, the `close` sentinel
when the offset exceeds `getSnapTranslateY(0) + dragThreshold`, and otherwise
the closest snap index found by the loop. -/
def findTargetSnapIndex (currentTranslateY : ℚ) (sp : Option (List ℚ))
    (currentSnapIndex : ℤ) (dragThreshold : ℚ) : SnapTarget :=
  match sp with
  | none => .index currentSnapIndex
  | some l =>
    if l.isEmpty then .index currentSnapIndex
    else if currentTranslateY > offsetOf l 0 + dragThreshold then .close
    else .index (findClosest l currentTranslateY)

/-- The `shouldClose` predicate of `onPanResponderRelease` in the
PanResponder-based variant (`src/unnamed/part_005`, lines 363–366), non-snap
branch: `vy > 0.5 || (dy > dragThreshold / 2 && vy > 0.1) || dy > dragThreshold`. -/
def shouldClosePanRelease (dy vy dragThreshold : ℚ) : Bool :=
  vy > 1/2 || (dy > dragThreshold / 2 && vy > 1/10) || dy > dragThreshold

/-- Outcome of a non-snap drag release: run the close sequence, or animate
the offset back to a resting value. -/
inductive ReleaseAction where
  | close
  | animateBackTo (rest : ℚ)
deriving DecidableEq, Repr

/-- Non-snap branch of `handleTouchEnd` in `useGestureHandlers.ts`
(lines 104–134): `isSwipeDown = deltaY > dragThreshold`; close when
`isSwipeDown && deltaY > 0`, otherwise animate `translateY` back to `0`.
The release velocity is not consulted. -/
def handleTouchEndNonSnap (deltaY dragThreshold : ℚ) : ReleaseAction :=
  if deltaY > dragThreshold ∧ deltaY > 0 then .close else .animateBackTo 0

/-- Non-snap branch of `onPanResponderRelease` in `src/unnamed/part_005`
(lines 361–379): close when `shouldClose`, otherwise spring back to
`modalPosition` (which is the constant `0`, line 206). -/
def panResponderReleaseNonSnap (dy vy dragThreshold : ℚ) : ReleaseAction :=
  if shouldClosePanRelease dy vy dragThreshold then .close else .animateBackTo 0

/-- Scroll-session state read and written by `handleScroll`
(`ModalSheet.tsx`): the `lastScrollY` and `canExpandFromScroll` refs. -/
structure ScrollState where
  lastScrollY : ℚ
  canExpandFromScroll : Bool
deriving DecidableEq, Repr

/-- Transition request issued by the scroll handler. -/
inductive ScrollAction where
  | idle
  | snapTo (i : ℤ)
  | closeSheet
deriving DecidableEq, Repr

/-- JS test `velocity && velocity.y > c` with a possibly-absent velocity. -/
def vyGt (vy : Option ℚ) (c : ℚ) : Bool :=
  match vy with
  | none => false
  | some v => v > c

/-- JS test `velocity && velocity.y < c` with a possibly-absent velocity. -/
def vyLt (vy : Option ℚ) (c : ℚ) : Bool :=
  match vy with
  | none => false
  | some v => v < c

/-- Embedding of `handleScroll` in `ModalSheet.tsx` (lines 891–977): the
scroll-to-expand / scroll-to-collapse tracker.  Returns the updated scroll
state together with the transition request it issues.  The
`setTimeout`-based cooldown reset is outside a single call and is not part
of this step function. -/
def handleScroll (enableScrollToExpand : Bool) (sp : Option (List ℚ))
    (currentSnapIndex : ℤ) (scrollExpandThreshold : ℚ) (s : ScrollState)
    (currentScrollY : ℚ) (vy : Option ℚ) : ScrollState × ScrollAction :=
  match sp with
  | none => (s, .idle)
  | some l =>
    if ¬enableScrollToExpand ∨ l.isEmpty then (s, .idle)
    else
      let isScrollingDown := currentScrollY > s.lastScrollY
      let isScrollingUp := currentScrollY < s.lastScrollY
      let isAtTop := currentScrollY ≤ 0
      -- expand block (lines 912–941)
      let expandFires :=
        isScrollingDown ∧ s.canExpandFromScroll = true ∧
          currentSnapIndex < (l.length : ℤ) - 1 ∧
          (currentScrollY - s.lastScrollY ≥ scrollExpandThreshold ∨
            vyGt vy (8/10) = true)
      if expandFires then
        let targetIndex : ℤ :=
          if vyGt vy (7/2) then (l.length : ℤ) - 1
          else if vyGt vy (11/5) then
            min (currentSnapIndex + 2) ((l.length : ℤ) - 1)
          else currentSnapIndex + 1
        (⟨currentScrollY, false⟩, .snapTo targetIndex)
      else
        -- collapse block (lines 944–974); `canExpandFromScroll` can only
        -- still be true here because the expand block did not fire
        let collapseFires :=
          isAtTop ∧ isScrollingUp ∧ s.canExpandFromScroll = true ∧
            (|s.lastScrollY - currentScrollY| ≥ scrollExpandThreshold ∨
              vyLt vy (-(8/10)) = true)
        if collapseFires then
          let targetIndex : ℤ :=
            if vyLt vy (-(7/2)) then 0
            else if vyLt vy (-(11/5)) then max (currentSnapIndex - 2) 0
            else currentSnapIndex - 1
          if targetIndex < 0 ∨ currentSnapIndex = 0 then
            (⟨currentScrollY, false⟩, .closeSheet)
          else
            (⟨currentScrollY, false⟩, .snapTo targetIndex)
        else (⟨currentScrollY, s.canExpandFromScroll⟩, .idle)

/-- An animation stored in the `currentAnimation` ref: the open parallel
animation or the close parallel animation (`ModalSheet/ModalSheet.tsx`,
lines 174/224). -/
inductive PendingAnim where
  | openAnim
  | closeAnim
deriving DecidableEq, Repr

/-- Callback invocations observable by the host application. -/
inductive Event where
  | snapPointChangeFired (i : ℤ)
  | openFired
  | closeFired
deriving DecidableEq, Repr

/-- State of one sheet instance (`ModalSheet/ModalSheet.tsx` +
`useAnimations.ts`): the `visible` flag, `currentSnapIndex`, the
`isAnimating` state, the `isImperativelyAnimating` ref, the `translateY`
animated value (`none` = NaN), the `currentAnimation` ref, and the target
of an in-flight snap timing animation (which the code does **not** store in
`currentAnimation`). -/
structure SheetState where
  visible : Bool
  currentSnapIndex : ℤ
  isAnimating : Bool
  isImperativelyAnimating : Bool
  translateY : Option ℚ
  pendingCurrent : Option PendingAnim
  pendingSnap : Option (Option ℚ)
deriving DecidableEq, Repr

/-- Static configuration of one sheet instance. -/
structure Config where
  snapPoints : Option (List ℚ)
  initialSnapIndex : ℤ
  screenHeight : ℚ
deriving DecidableEq, Repr

/-- The event-loop steps we drive the sheet with: the imperative calls plus
the natural-completion steps of the tween engine.

Modelled from the spec: the tween engine itself is not part of this
repository (spec §1 treats it as an opaque collaborator); per §6 it must
"invoke callback on natural completion, support externally-triggered stop",
and per §5 the completion callback of a stopped animation never runs.  Hence
`settleCurrent`/`settleSnap` fire the completion effects of an animation
that is still pending, and `stopCurrentAnimation` (embedded inside
`openSheet`/`closeSheet`) discards the pending animation without firing
anything. -/
inductive Call where
  | callOpen
  | callClose
  | callSnap (i : ℤ)
  | settleCurrent
  | settleSnap
deriving DecidableEq, Repr

/-- Embedding of `snapToPoint` (`useAnimations.ts` lines 48–68, identical in
`ModalSheet.tsx` lines 387–409): guard on null snap points and index range
only; then synchronously set `currentSnapIndex`, fire `onSnapPointChange`,
set `isAnimating`, and start a timing animation whose completion merely
clears `isAnimating`. -/
def snapToPointOp (cfg : Config) (s : SheetState) (index : ℤ) :
    SheetState × List Event :=
  match cfg.snapPoints with
  | none => (s, [])
  | some l =>
    if index < 0 ∨ (l.length : ℤ) ≤ index then (s, [])
    else
      ({ s with
          currentSnapIndex := index
          isAnimating := true
          pendingSnap := some (getSnapTranslateY (some l) index) },
        [.snapPointChangeFired index])

/-- Embedding of `open` (`ModalSheet/ModalSheet.tsx` lines 159–199): guarded
by `isImperativelyAnimating || visible`; otherwise stop the current
animation, set the flags, seed `translateY` from `initialSnapIndex` (snap
mode) or `screenHeight`, and start the open parallel animation. -/
def openSheet (cfg : Config) (s : SheetState) : SheetState × List Event :=
  if s.isImperativelyAnimating = true ∨ s.visible = true then (s, [])
  else
    ({ s with
        visible := true
        isImperativelyAnimating := true
        translateY :=
          match cfg.snapPoints with
          | some l => getSnapTranslateY (some l) cfg.initialSnapIndex
          | none => some cfg.screenHeight
        pendingCurrent := some .openAnim },
      [])

/-- Embedding of `close` (`ModalSheet/ModalSheet.tsx` lines 216–245):
guarded by `!visible`; otherwise stop the current animation (discarding it)
and start the close parallel animation. -/
def closeSheet (s : SheetState) : SheetState × List Event :=
  if s.visible = false then (s, [])
  else
    ({ s with
        isImperativelyAnimating := true
        pendingCurrent := some .closeAnim },
      [])

/-- Natural completion of the animation held in `currentAnimation`:
the open animation fires `onOpen`; the close animation sets `visible`
false and fires `onClose` (each via a zero-delay timer, folded into this
step). -/
def settleCurrentOp (s : SheetState) : SheetState × List Event :=
  match s.pendingCurrent with
  | none => (s, [])
  | some .openAnim =>
    ({ s with pendingCurrent := none, isImperativelyAnimating := false },
      [.openFired])
  | some .closeAnim =>
    ({ s with
        pendingCurrent := none
        isImperativelyAnimating := false
        visible := false },
      [.closeFired])

/-- Natural completion of a snap timing animation: `translateY` reaches the
target and the completion callback clears `isAnimating` — it fires no
notification. -/
def settleSnapOp (s : SheetState) : SheetState × List Event :=
  match s.pendingSnap with
  | none => (s, [])
  | some target =>
    ({ s with translateY := target, isAnimating := false, pendingSnap := none },
      [])

/-- One event-loop step of the sheet. -/
def step (cfg : Config) (s : SheetState) : Call → SheetState × List Event
  | .callOpen => openSheet cfg s
  | .callClose => closeSheet s
  | .callSnap i => snapToPointOp cfg s i
  | .settleCurrent => settleCurrentOp s
  | .settleSnap => settleSnapOp s

/-- Run a list of steps, accumulating the emitted events in order. -/
def run (cfg : Config) (s : SheetState) : List Call → SheetState × List Event
  | [] => (s, [])
  | c :: cs =>
    let r := step cfg s c
    let rest := run cfg r.1 cs
    (rest.1, r.2 ++ rest.2)

/-- Does an event report a snap-point change? -/
def isSnapChange : Event → Bool
  | .snapPointChangeFired _ => true
  | _ => false

/-- Guard structure of `snapToPoint` in the PanResponder variant
(`src/unnamed/part_005`, lines 384–389): with `len` snap heights and current
index `cur`, the requested index is clamped into range and the call is a
no-op exactly when the clamped target equals the current index (`none`);
otherwise the clamped target (`some`) is animated to, with the
snap-change callback fired on completion. -/
def snapToPointPan (len : ℕ) (cur index : ℤ) : Option ℤ :=
  if len = 0 then none
  else
    if max 0 (min index ((len : ℤ) - 1)) = cur then none
    else some (max 0 (min index ((len : ℤ) - 1)))

/-- A three-point configuration: snap pixels `[100, 300, 600]` on a
1000-pixel screen, initial snap index 0. -/
def cfg0 : Config := ⟨some [100, 300, 600], 0, 1000⟩

/-- An open, settled sheet at snap index 0 of `cfg0`
(`translateY = 600 - 100 = 500`). -/
def sOpen0 : SheetState := ⟨true, 0, false, false, some 500, none, none⟩

/-- An open, settled sheet at snap index 1 of `cfg0`
(`translateY = 600 - 300 = 300`). -/
def sAt1 : SheetState := ⟨true, 1, false, false, some 300, none, none⟩

/-- A hidden, settled sheet. -/
def sHidden0 : SheetState := ⟨false, 0, false, false, some 1100, none, none⟩

/-- The scenario trace of claim C1: `snapToPoint(1)` immediately followed by
`snapToPoint(2)`, then the snap animation settles. -/
def rapidSnapTrace : List Call := [.callSnap 1, .callSnap 2, .settleSnap]

/-- C1, counterexample: from a settled sheet at index 0 of the three-point
configuration, issuing `snapToPoint(1)` immediately followed by
`snapToPoint(2)` fires `onSnapPointChange` twice, not exactly once as the
claim states. -/
theorem rapid_snapToPoint_fires_snapChange_twice :
    ((run cfg0 sOpen0 rapidSnapTrace).2.filter isSnapChange).length ≠ 1 := by
  norm_num [rapidSnapTrace, run, step, snapToPointOp, settleSnapOp, cfg0,
    sOpen0, isSnapChange, getSnapTranslateY, jsGet, List.filter]

/-- C1, amended: `onSnapPointChange` fires once per accepted `snapToPoint`
call, synchronously at call time and before the animation settles (the
completion callback only clears `isAnimating` and fires nothing); hence
`snapToPoint(1)` immediately followed by `snapToPoint(2)` fires the callback
twice — with index 1 and then index 2 — and the final settled index is 2. -/
theorem snapChange_fires_at_call_time_not_on_settle :
    (step cfg0 sOpen0 (Call.callSnap 1)).2 = [Event.snapPointChangeFired 1] ∧
    (step cfg0 sOpen0 (Call.callSnap 1)).1.isAnimating = true ∧
    (settleSnapOp (step cfg0 sOpen0 (Call.callSnap 1)).1).2 = [] ∧
    (run cfg0 sOpen0 rapidSnapTrace).2 =
      [Event.snapPointChangeFired 1, Event.snapPointChangeFired 2] ∧
    (run cfg0 sOpen0 rapidSnapTrace).1.currentSnapIndex = 2 ∧
    (run cfg0 sOpen0 rapidSnapTrace).1.isAnimating = false := by
  norm_num [rapidSnapTrace, run, step, snapToPointOp, settleSnapOp, cfg0,
    sOpen0, getSnapTranslateY, jsGet]

/-- The scenario trace of claim C2: `close()` called twice in succession,
then the pending close animation settles (twice, to show the second settle
step finds nothing to complete). -/
def doubleCloseTrace : List Call :=
  [.callClose, .callClose, .settleCurrent, .settleCurrent]

/-- C2: calling `close()` twice in succession — the second call while the
first close animation is in flight — stops and discards the first animation
(whose completion callback therefore never runs), so `onClose` fires exactly
once and the sheet ends hidden. -/
theorem double_close_fires_onClose_once (cfg : Config) (s : SheetState)
    (h : s.visible = true) :
    (run cfg s doubleCloseTrace).2 = [Event.closeFired] ∧
    (run cfg s doubleCloseTrace).1.visible = false := by
  simp [doubleCloseTrace, run, step, closeSheet, settleCurrentOp, h]

/-- C2, witness at a settled sheet at index 1. -/
theorem double_close_fires_onClose_once_witness :
    (run cfg0 sAt1 doubleCloseTrace).2 = [Event.closeFired] ∧
    (run cfg0 sAt1 doubleCloseTrace).1.visible = false :=
  double_close_fires_onClose_once cfg0 sAt1 rfl

/-- C8: `open()` is a no-op whenever the sheet is already visible or an
imperative transition is in flight: the state (visibility, offset, snap
index) is returned unchanged and no callback fires. -/
theorem open_noop_when_visible_or_inflight (cfg : Config) (s : SheetState)
    (h : s.isImperativelyAnimating = true ∨ s.visible = true) :
    step cfg s Call.callOpen = (s, []) := by
  simp only [step, openSheet]
  rw [if_pos h]

/-- C8, witness: opening an already-visible settled sheet changes nothing
and fires no `onOpen`. -/
theorem open_noop_when_visible_or_inflight_witness :
    step cfg0 sAt1 Call.callOpen = (sAt1, []) :=
  open_noop_when_visible_or_inflight cfg0 sAt1 (Or.inr rfl)

/-- C9, counterexample: with snap mode active and the sheet settled at index
1, `snapToPoint(1)` — the current index — is **not** a no-op: it fires
`onSnapPointChange(1)` again and restarts the snap animation. -/
theorem snapToPoint_equal_index_not_noop :
    (step cfg0 sAt1 (Call.callSnap 1)).2 = [Event.snapPointChangeFired 1] ∧
    (step cfg0 sAt1 (Call.callSnap 1)).1 ≠ sAt1 := by
  norm_num [step, snapToPointOp, cfg0, sAt1, getSnapTranslateY, jsGet,
    SheetState.mk.injEq]

/-- C9, amended: the hook implementation's `snapToPoint(i)` is a no-op
exactly when snap mode is inactive or `i` is outside `[0, count)`; for an
in-range `i` it always fires `onSnapPointChange(i)` and animates — also when
`i` equals the current index.  Only the PanResponder variant
(`src/unnamed/part_005`) additionally guards the current index: its
`snapToPoint` is a no-op when the clamped target equals the current index. -/
theorem snapToPoint_guard_conditions (cfg : Config) (s : SheetState) (i : ℤ) :
    (cfg.snapPoints = none → step cfg s (Call.callSnap i) = (s, [])) ∧
    (∀ l, cfg.snapPoints = some l → i < 0 ∨ (l.length : ℤ) ≤ i →
      step cfg s (Call.callSnap i) = (s, [])) ∧
    (∀ l, cfg.snapPoints = some l → 0 ≤ i → i < (l.length : ℤ) →
      (step cfg s (Call.callSnap i)).2 = [Event.snapPointChangeFired i] ∧
      (step cfg s (Call.callSnap i)).1.isAnimating = true) ∧
    (∀ len : ℕ, 0 ≤ s.currentSnapIndex → s.currentSnapIndex < (len : ℤ) →
      snapToPointPan len s.currentSnapIndex s.currentSnapIndex = none) := by
  refine ⟨?_, ?_, ?_, ?_⟩
  · intro h
    simp [step, snapToPointOp, h]
  · intro l hl hrange
    simp only [step, snapToPointOp, hl]
    rw [if_pos hrange]
  · intro l hl h0 h1
    have hnot : ¬(i < 0 ∨ (l.length : ℤ) ≤ i) := by omega
    simp only [step, snapToPointOp, hl]
    rw [if_neg hnot]
    exact ⟨rfl, rfl⟩
  · intro len h0 h1
    have hne : ¬len = 0 := by omega
    have hclamp : max 0 (min s.currentSnapIndex ((len : ℤ) - 1)) =
        s.currentSnapIndex := by omega
    simp only [snapToPointPan]
    rw [if_neg hne, if_pos hclamp]

/-- C9, witness: a valid index change fires the callback, and the
PanResponder variant treats an equal in-range index as a no-op. -/
theorem snapToPoint_guard_conditions_witness :
    (step cfg0 sAt1 (Call.callSnap 2)).2 = [Event.snapPointChangeFired 2] ∧
    snapToPointPan 3 1 1 = none := by
  have h := snapToPoint_guard_conditions cfg0 sAt1 2
  refine ⟨(h.2.2.1 [100, 300, 600] rfl (by norm_num) (by norm_num)).1, ?_⟩
  simpa [sAt1] using h.2.2.2 3 (by norm_num [sAt1]) (by norm_num [sAt1])

/-- C4, counterexample: with snap pixels `[100, 300, 600]` (offsets-from-max
`[500, 300, 0]`) and `dragThreshold = 125` (far from triggering CLOSE at
offset 400), a drag ending at raw offset 400 does **not** resolve to index 1:
the tie between index 0 and index 1 (both at distance 100) is kept by the
strict-less-than loop at the first index found. -/
theorem drag_release_at_400_not_index_one :
    findTargetSnapIndex 400 (some [100, 300, 600]) 0 125 ≠
      SnapTarget.index 1 := by
  norm_num [findTargetSnapIndex, offsetOf, findClosest, findClosestGo]

/-- C4, amended: with snap pixels `[100, 300, 600]` and any `dragThreshold`
large enough not to trigger CLOSE at offset 400, a drag ending at raw offset
400 resolves to index 0 — the tie between the equally distant indices 0 and
1 resolves to the lower index, the first found in iteration order. -/
theorem drag_release_at_400_resolves_to_index_zero (th : ℚ) (ci : ℤ)
    (h : (400 : ℚ) ≤ 500 + th) :
    findTargetSnapIndex 400 (some [100, 300, 600]) ci th =
      SnapTarget.index 0 := by
  have hnot : ¬((400 : ℚ) > offsetOf [100, 300, 600] 0 + th) := by
    norm_num [offsetOf]
    linarith
  have hfc : findClosest [100, 300, 600] 400 = 0 := by
    norm_num [findClosest, findClosestGo]
  simp only [findTargetSnapIndex]
  rw [if_neg (by norm_num), if_neg hnot, hfc]
  norm_num

/-- C4, witness at `dragThreshold = 125`. -/
theorem drag_release_at_400_resolves_to_index_zero_witness :
    findTargetSnapIndex 400 (some [100, 300, 600]) 0 125 =
      SnapTarget.index 0 :=
  drag_release_at_400_resolves_to_index_zero 125 0 (by norm_num)

/-- C5: normalization maps each entry independently — a `%` string to
`(parsed / 100) × viewport extent`, a number in `(0, 1]` to
`value × viewport extent`, a number `> 1` to itself — and the output list
has the same length and order as the input (it is a plain `map`: no sorting,
no deduplication). -/
theorem normalize_maps_entries_pointwise (screenH : ℚ) (spec : List SnapEntry)
    (hne : spec ≠ []) :
    ∃ out, snapPointsInPixels screenH (some spec) = some out ∧
      out.length = spec.length ∧
      (∀ i v, spec.get? i = some (SnapEntry.str v true) →
        out.get? i = some (screenH * (v / 100))) ∧
      (∀ i v, spec.get? i = some (SnapEntry.num v) → 0 < v → v ≤ 1 →
        out.get? i = some (screenH * v)) ∧
      (∀ i v, spec.get? i = some (SnapEntry.num v) → 1 < v →
        out.get? i = some v) := by
  have hempty : spec.isEmpty = false := by
    cases spec with
    | nil => exact absurd rfl hne
    | cons a as => rfl
  refine ⟨spec.map (normalizePoint screenH), ?_, List.length_map spec _,
    ?_, ?_, ?_⟩
  · simp [snapPointsInPixels, hempty]
  · intro i v hi
    rw [List.get?_map, hi]
    rfl
  · intro i v hi h0 h1
    rw [List.get?_map, hi]
    simp only [Option.map_some']
    rw [normalizePoint, if_pos ⟨h0, h1⟩]
  · intro i v hi h1
    rw [List.get?_map, hi]
    simp only [Option.map_some']
    rw [normalizePoint, if_neg (by push_neg; intro; linarith)]

/-- C5, witness: a fraction, a percentage string and an absolute pixel value
on a 1000-pixel viewport. -/
theorem normalize_maps_entries_pointwise_witness :
    ∃ out,
      snapPointsInPixels 1000
        (some [SnapEntry.num (1/2), SnapEntry.str 50 true,
          SnapEntry.num 300]) = some out ∧
      out.get? 0 = some 500 ∧ out.get? 1 = some 500 ∧
      out.get? 2 = some 300 := by
  obtain ⟨out, hout, _, hstr, hfrac, habs⟩ :=
    normalize_maps_entries_pointwise 1000
      [SnapEntry.num (1/2), SnapEntry.str 50 true, SnapEntry.num 300]
      (by simp)
  refine ⟨out, hout, ?_, ?_, ?_⟩
  · rw [hfrac 0 (1/2) rfl (by norm_num) (by norm_num)]
    norm_num
  · rw [hstr 1 50 rfl]
    norm_num
  · exact habs 2 300 rfl (by norm_num)

/-- C6, counterexample: at final delta 0 with release velocity 1 and
`dragThreshold = 125`, the claimed heuristic demands a close
(`velocity > 0.5`), but the modular implementation's `handleTouchEnd`
ignores velocity and snaps back to rest instead. -/
theorem touchEnd_ignores_velocity :
    shouldClosePanRelease 0 1 125 = true ∧
    handleTouchEndNonSnap 0 125 = ReleaseAction.animateBackTo 0 := by
  norm_num [shouldClosePanRelease, handleTouchEndNonSnap]

/-- C6, amended: the velocity heuristic governs only the PanResponder-based
variant (`src/unnamed/part_005`), which closes exactly when
`velocity > 0.5` or (`delta > dragThreshold/2` and `velocity > 0.1`) or
`delta > dragThreshold`, and otherwise springs back to rest offset 0; the
modular implementation's `handleTouchEnd` ignores velocity and closes
exactly when `delta > dragThreshold` (and `delta > 0`), otherwise animating
back to rest offset 0. -/
theorem nonsnap_release_close_conditions (dy vy th : ℚ) :
    (panResponderReleaseNonSnap dy vy th = ReleaseAction.close ↔
      (1/2 < vy ∨ (th/2 < dy ∧ 1/10 < vy) ∨ th < dy)) ∧
    (¬(1/2 < vy ∨ (th/2 < dy ∧ 1/10 < vy) ∨ th < dy) →
      panResponderReleaseNonSnap dy vy th = ReleaseAction.animateBackTo 0) ∧
    (handleTouchEndNonSnap dy th = ReleaseAction.close ↔ (th < dy ∧ 0 < dy)) ∧
    (¬(th < dy ∧ 0 < dy) →
      handleTouchEndNonSnap dy th = ReleaseAction.animateBackTo 0) := by
  have hb : shouldClosePanRelease dy vy th = true ↔
      (1/2 < vy ∨ (th/2 < dy ∧ 1/10 < vy) ∨ th < dy) := by
    simp [shouldClosePanRelease, or_assoc]
  refine ⟨?_, ?_, ?_, ?_⟩
  · rw [← hb]
    by_cases h : shouldClosePanRelease dy vy th = true
    · simp [panResponderReleaseNonSnap, h]
    · simp [panResponderReleaseNonSnap, h]
  · intro h
    rw [← hb] at h
    simp [panResponderReleaseNonSnap, h]
  · by_cases h : th < dy ∧ 0 < dy
    · simp [handleTouchEndNonSnap, h]
    · simp [handleTouchEndNonSnap, h]
  · intro h
    simp [handleTouchEndNonSnap, h]

/-- C6, witness: delta 130 closes the modular handler at threshold 125, and
velocity 1 alone closes the PanResponder variant. -/
theorem nonsnap_release_close_conditions_witness :
    handleTouchEndNonSnap 130 125 = ReleaseAction.close ∧
    panResponderReleaseNonSnap 0 1 125 = ReleaseAction.close :=
  ⟨((nonsnap_release_close_conditions 130 0 125).2.2.1).mpr
      (by norm_num),
    ((nonsnap_release_close_conditions 0 1 125).1).mpr
      (Or.inl (by norm_num))⟩

/-- A configuration whose `initialSnapIndex` (5) is out of range for its
three snap points. -/
def cfgOut5 : Config := ⟨some [100, 300, 600], 5, 1000⟩

/-- C10: `getSnapTranslateY` performs no bounds check — for a non-empty snap
list and any index outside `[0, length)` the array read is `undefined` and
the returned offset is NaN (`none`) — and `open()` passes the caller's
`initialSnapIndex` to it unvalidated, so an out-of-range `initialSnapIndex`
seeds `translateY` with that NaN while still making the sheet visible. -/
theorem out_of_range_snap_index_seeds_nan (l : List ℚ) (hl : l ≠ []) (i : ℤ)
    (hi : i < 0 ∨ (l.length : ℤ) ≤ i) (cfg : Config) (s : SheetState)
    (hsp : cfg.snapPoints = some l) (hinit : cfg.initialSnapIndex = i)
    (himp : s.isImperativelyAnimating = false) (hvis : s.visible = false) :
    getSnapTranslateY (some l) i = none ∧
    (step cfg s Call.callOpen).1.translateY = none ∧
    (step cfg s Call.callOpen).1.visible = true := by
  have hs : l.getLast?.isSome := by
    rw [List.getLast?_isSome]
    exact hl
  obtain ⟨m, hm⟩ := Option.isSome_iff_exists.mp hs
  have hj : jsGet l i = none := by
    unfold jsGet
    rw [dif_neg]
    omega
  have h1 : getSnapTranslateY (some l) i = none := by
    simp [getSnapTranslateY, hm, hj]
  have hguard : ¬(s.isImperativelyAnimating = true ∨ s.visible = true) := by
    simp [himp, hvis]
  refine ⟨h1, ?_, ?_⟩
  · simp only [step, openSheet]
    rw [if_neg hguard]
    simp [hsp, hinit, h1]
  · simp only [step, openSheet]
    rw [if_neg hguard]

/-- C10, witness: `initialSnapIndex = 5` against three snap points. -/
theorem out_of_range_snap_index_seeds_nan_witness :
    getSnapTranslateY (some [100, 300, 600]) 5 = none ∧
    (step cfgOut5 sHidden0 Call.callOpen).1.translateY = none ∧
    (step cfgOut5 sHidden0 Call.callOpen).1.visible = true :=
  out_of_range_snap_index_seeds_nan [100, 300, 600] (by simp) 5
    (by norm_num) cfgOut5 sHidden0 rfl rfl rfl rfl

/-- Bridge lemma: on an in-range index of a non-empty list,
`getSnapTranslateY` returns exactly the offset-from-max `offsetOf`. -/
lemma getSnapTranslateY_eq_offsetOf (l : List ℚ) (hl : l ≠ []) (i : ℕ)
    (hi : i < l.length) :
    getSnapTranslateY (some l) (i : ℤ) = some (offsetOf l i) := by
  have hs : l.getLast?.isSome := by
    rw [List.getLast?_isSome]
    exact hl
  obtain ⟨m, hm⟩ := Option.isSome_iff_exists.mp hs
  have hj : jsGet l (i : ℤ) = some (l.get ⟨i, hi⟩) := by
    unfold jsGet
    rw [dif_pos (by omega)]
    congr 1
  have hlast : l.getLastD 0 = m := by
    rw [List.getLastD_eq_getLast?, hm]
    rfl
  have hgd : l.getD i 0 = l.get ⟨i, hi⟩ := by
    simp [List.getD_eq_getElem?_getD, List.getElem?_eq_getElem hi,
      List.get_eq_getElem]
  simp [getSnapTranslateY, hm, hj, offsetOf, hlast, hgd,
    List.getElem?_eq_getElem hi, List.get_eq_getElem]

/-- Loop invariant of `findClosestGo` started with an already-set minimum
`m`: the final accumulator carries the distance of the winning index; the
winner beats every element of the remaining suffix (non-strictly), and it is
either the incoming `target` with distance exactly `m`, or an element of the
suffix that strictly beats `m` and strictly beats every suffix element
before it. -/
lemma findClosestGo_spec (off maxH : ℚ) (xs : List ℚ) :
    ∀ (b t : ℕ) (m : ℚ),
      ∃ d : ℚ, (findClosestGo off maxH xs b t (some m)).2 = some d ∧
        d ≤ m ∧
        (∀ k, k < xs.length → d ≤ |off - (maxH - xs.getD k 0)|) ∧
        (((findClosestGo off maxH xs b t (some m)).1 = t ∧ d = m) ∨
          (∃ k, k < xs.length ∧
            (findClosestGo off maxH xs b t (some m)).1 = b + k ∧
            d = |off - (maxH - xs.getD k 0)| ∧ d < m ∧
            ∀ k2, k2 < k → d < |off - (maxH - xs.getD k2 0)|)) := by
  induction xs with
  | nil =>
    intro b t m
    exact ⟨m, rfl, le_rfl, fun k hk => absurd hk (by simp),
      Or.inl ⟨rfl, rfl⟩⟩
  | cons x xs ih =>
    intro b t m
    by_cases hd : |off - (maxH - x)| < m
    · have heq : findClosestGo off maxH (x :: xs) b t (some m) =
          findClosestGo off maxH xs (b + 1) b (some |off - (maxH - x)|) := by
        simp [findClosestGo, hd]
      obtain ⟨d, h2, hle, hmin, hcase⟩ := ih (b + 1) b |off - (maxH - x)|
      rw [heq]
      refine ⟨d, h2, hle.trans hd.le, ?_, ?_⟩
      · intro k hk
        cases k with
        | zero => simpa using hle
        | succ k' =>
          rw [List.getD_cons_succ]
          exact hmin k' (by simpa using hk)
      · rcases hcase with ⟨hres, hdm⟩ | ⟨k, hk, hres, hdk, hdm, hstrict⟩
        · refine Or.inr ⟨0, by simp, by omega, by simpa using hdm, ?_, ?_⟩
          · rw [hdm]
            exact hd
          · intro k2 hk2
            exact absurd hk2 (Nat.not_lt_zero k2)
        · refine Or.inr ⟨k + 1, by simpa using hk, by omega,
            by simpa using hdk, hdm.trans hd, ?_⟩
          intro k2 hk2
          cases k2 with
          | zero => simpa using hdm
          | succ k2' =>
            rw [List.getD_cons_succ]
            exact hstrict k2' (by omega)
    · have hge : m ≤ |off - (maxH - x)| := not_lt.mp hd
      have heq : findClosestGo off maxH (x :: xs) b t (some m) =
          findClosestGo off maxH xs (b + 1) t (some m) := by
        simp [findClosestGo, hd]
      obtain ⟨d, h2, hle, hmin, hcase⟩ := ih (b + 1) t m
      rw [heq]
      refine ⟨d, h2, hle, ?_, ?_⟩
      · intro k hk
        cases k with
        | zero => simpa using hle.trans hge
        | succ k' =>
          rw [List.getD_cons_succ]
          exact hmin k' (by simpa using hk)
      · rcases hcase with ⟨hres, hdm⟩ | ⟨k, hk, hres, hdk, hdm, hstrict⟩
        · exact Or.inl ⟨hres, hdm⟩
        · refine Or.inr ⟨k + 1, by simpa using hk, by omega,
            by simpa using hdk, hdm, ?_⟩
          intro k2 hk2
          cases k2 with
          | zero => simpa using lt_of_lt_of_le hdm hge
          | succ k2' =>
            rw [List.getD_cons_succ]
            exact hstrict k2' (by omega)

/-- The loop of `findTargetSnapIndex` returns the first index of the snap
list whose offset-from-max is closest to the current offset: it is in
range, its distance is minimal, and it strictly beats every earlier
index (the tie-break to the lower index). -/
lemma findClosest_spec (l : List ℚ) (hl : l ≠ []) (off : ℚ) :
    findClosest l off < l.length ∧
    (∀ i, i < l.length →
      |off - offsetOf l (findClosest l off)| ≤ |off - offsetOf l i|) ∧
    (∀ i, i < findClosest l off →
      |off - offsetOf l (findClosest l off)| < |off - offsetOf l i|) := by
  cases l with
  | nil => exact absurd rfl hl
  | cons x xs =>
    set maxH := (x :: xs).getLastD 0 with hmaxH
    have heq : findClosest (x :: xs) off =
        (findClosestGo off maxH xs 1 0 (some |off - (maxH - x)|)).1 := by
      rw [findClosest, findClosestGo]
    have hoff : ∀ k : ℕ, offsetOf (x :: xs) (k + 1) = maxH - xs.getD k 0 := by
      intro k
      rw [offsetOf, ← hmaxH, List.getD_cons_succ]
    have hoff0 : offsetOf (x :: xs) 0 = maxH - x := by
      rw [offsetOf, ← hmaxH, List.getD_cons_zero]
    obtain ⟨d, _, _, hmin, hcase⟩ :=
      findClosestGo_spec off maxH xs 1 0 |off - (maxH - x)|
    rcases hcase with ⟨hres, hdm⟩ | ⟨k, hk, hres, hdk, hdm, hstrict⟩
    · have hj : findClosest (x :: xs) off = 0 := by rw [heq, hres]
      rw [hj]
      refine ⟨by simp, ?_, ?_⟩
      · intro i hi
        cases i with
        | zero => exact le_rfl
        | succ i' =>
          rw [hoff0, hoff i']
          calc |off - (maxH - x)| = d := hdm.symm
            _ ≤ _ := hmin i' (by simpa using hi)
      · intro i hi
        exact absurd hi (Nat.not_lt_zero i)
    · have hj : findClosest (x :: xs) off = k + 1 := by
        rw [heq, hres]
        omega
      rw [hj]
      refine ⟨by simpa using hk, ?_, ?_⟩
      · intro i hi
        cases i with
        | zero =>
          rw [hoff0, hoff k, ← hdk]
          exact hdm.le
        | succ i' =>
          rw [hoff k, hoff i', ← hdk]
          exact hmin i' (by simpa using hi)
      · intro i hi
        cases i with
        | zero =>
          rw [hoff0, hoff k, ← hdk]
          exact hdm
        | succ i' =>
          rw [hoff k, hoff i', ← hdk]
          exact hstrict i' (by omega)

/-- C3: for every non-empty snap configuration, the drag-release resolver
returns CLOSE exactly when the current offset strictly exceeds
`offsetForIndex(0) + dragThreshold`; otherwise it returns an in-range index
whose offset-from-max is numerically closest to the current offset, ties
between equally distant indices resolving to the lower index (the first
found in iteration order). -/
theorem findTargetSnapIndex_close_iff_and_nearest (l : List ℚ) (hl : l ≠ [])
    (off th : ℚ) (ci : ℤ) :
    (findTargetSnapIndex off (some l) ci th = SnapTarget.close ↔
      off > offsetOf l 0 + th) ∧
    (off ≤ offsetOf l 0 + th →
      ∃ j : ℕ, findTargetSnapIndex off (some l) ci th =
          SnapTarget.index (j : ℤ) ∧
        j < l.length ∧
        (∀ i, i < l.length →
          |off - offsetOf l j| ≤ |off - offsetOf l i|) ∧
        (∀ i, i < j → |off - offsetOf l j| < |off - offsetOf l i|)) := by
  have hne : ¬(l.isEmpty = true) := by
    cases l with
    | nil => exact absurd rfl hl
    | cons a as => simp
  constructor
  · constructor
    · intro h
      by_contra hc
      push_neg at hc
      have : findTargetSnapIndex off (some l) ci th =
          SnapTarget.index (findClosest l off : ℤ) := by
        simp only [findTargetSnapIndex]
        rw [if_neg hne, if_neg (by linarith)]
      rw [this] at h
      exact SnapTarget.noConfusion h
    · intro h
      simp only [findTargetSnapIndex]
      rw [if_neg hne, if_pos h]
  · intro h
    obtain ⟨hlt, hmin, hstrict⟩ := findClosest_spec l hl off
    refine ⟨findClosest l off, ?_, hlt, hmin, hstrict⟩
    simp only [findTargetSnapIndex]
    rw [if_neg hne, if_neg (by linarith)]

/-- C3, witness: with snap pixels `[100, 300, 600]` and `dragThreshold 125`,
a release at offset 626 resolves to CLOSE (626 > 500 + 125), while a release
at offset 10 resolves to a valid nearest index. -/
theorem findTargetSnapIndex_close_iff_and_nearest_witness :
    findTargetSnapIndex 626 (some [100, 300, 600]) 0 125 =
      SnapTarget.close ∧
    ∃ j : ℕ, findTargetSnapIndex 10 (some [100, 300, 600]) 0 125 =
        SnapTarget.index (j : ℤ) ∧ j < 3 ∧
      (∀ i, i < 3 →
        |(10 : ℚ) - offsetOf [100, 300, 600] j| ≤
          |(10 : ℚ) - offsetOf [100, 300, 600] i|) ∧
      (∀ i, i < j →
        |(10 : ℚ) - offsetOf [100, 300, 600] j| <
          |(10 : ℚ) - offsetOf [100, 300, 600] i|) := by
  constructor
  · exact (findTargetSnapIndex_close_iff_and_nearest [100, 300, 600]
      (by simp) 626 125 0).1.mpr (by norm_num [offsetOf])
  · simpa using (findTargetSnapIndex_close_iff_and_nearest [100, 300, 600]
      (by simp) 10 125 0).2 (by norm_num [offsetOf])

/-- C7: when a scroll-down event passes the expansion gate (per-event scroll
delta at least `scrollExpandThreshold`, or downward velocity above 0.8)
while the sheet is below the topmost snap index, the requested target is
chosen by velocity tier: velocity above 3.5 jumps to the last index,
velocity in (2.2, 3.5] advances two indices clamped to the last, and
otherwise the index advances by one; the debounce latch is cleared in every
case. -/
theorem scroll_expand_velocity_tiers (l : List ℚ) (hl : l ≠ []) (ci : ℤ)
    (th lastY y : ℚ) (vy : Option ℚ) (hdown : y > lastY)
    (hci : ci < (l.length : ℤ) - 1)
    (hgate : y - lastY ≥ th ∨ vyGt vy (8/10) = true) :
    (vyGt vy (7/2) = true →
      (handleScroll true (some l) ci th ⟨lastY, true⟩ y vy).2 =
        ScrollAction.snapTo ((l.length : ℤ) - 1)) ∧
    (∀ v, vy = some v → 11/5 < v → v ≤ 7/2 →
      (handleScroll true (some l) ci th ⟨lastY, true⟩ y vy).2 =
        ScrollAction.snapTo (min (ci + 2) ((l.length : ℤ) - 1))) ∧
    (vyGt vy (11/5) = false →
      (handleScroll true (some l) ci th ⟨lastY, true⟩ y vy).2 =
        ScrollAction.snapTo (ci + 1)) ∧
    (handleScroll true (some l) ci th ⟨lastY, true⟩ y vy).1.canExpandFromScroll
      = false := by
  have hne : ¬(l.isEmpty = true) := by
    cases l with
    | nil => exact absurd rfl hl
    | cons a as => simp
  have hbase : handleScroll true (some l) ci th ⟨lastY, true⟩ y vy =
      (⟨y, false⟩, ScrollAction.snapTo
        (if vyGt vy (7/2) = true then (l.length : ℤ) - 1
         else if vyGt vy (11/5) = true then
           min (ci + 2) ((l.length : ℤ) - 1)
         else ci + 1)) := by
    simp only [handleScroll]
    rw [if_neg (by simp [hne]), if_pos ⟨hdown, trivial, hci, hgate⟩]
  refine ⟨?_, ?_, ?_, ?_⟩
  · intro hv
    rw [hbase]
    simp only [hv, if_true]
  · intro v hv h1 h2
    have h35 : vyGt vy (7/2) = false := by
      subst hv
      simp only [vyGt, decide_eq_false_iff_not]
      intro hc
      linarith
    have h22 : vyGt vy (11/5) = true := by
      subst hv
      simpa [vyGt] using h1
    rw [hbase]
    simp [h35, h22]
  · intro hv
    have h35 : vyGt vy (7/2) = false := by
      cases vy with
      | none => rfl
      | some v =>
        simp only [vyGt, decide_eq_false_iff_not] at hv ⊢
        intro hc
        exact hv (by linarith)
    rw [hbase]
    simp [h35, hv]
  · rw [hbase]

/-- C7, witness: at index 0 of the three-point configuration, a scroll-down
event of delta 60 (threshold 50) with velocity 4.0 requests a jump straight
to the last index 2. -/
theorem scroll_expand_velocity_tiers_witness :
    (handleScroll true (some [100, 300, 600]) 0 50 ⟨0, true⟩ 60 (some 4)).2 =
      ScrollAction.snapTo 2 := by
  have h := (scroll_expand_velocity_tiers [100, 300, 600] (by simp) 0 50 0 60
    (some 4) (by norm_num) (by norm_num)
    (Or.inl (by norm_num))).1 (by norm_num [vyGt])
  simpa using h

end ModalSheet
